import Mathlib

/-!
Verification of the client session state machine and event-delivery contract
of the Zoom Instant Web SDK type declarations (`dist/types/chat.d.ts`,
`dist/types/event-callback.d.ts`).

The repository ships only the public type declarations and their
documentation; the session state machine, event bus, participant registry
and chat subsystem are described by the specification but not implemented
in the repository. Data types below are embedded from the declaration
files; the operations are modelled from the specification, faithful to its
words, and every such definition says so in its doc comment.
-/

/-- Embedded from `event-callback.d.ts`: the state of the meeting connection. -/
inductive ConnectionState
  | Connected
  | Reconnecting
  | Closed
deriving DecidableEq, Repr

/-- Embedded from `event-callback.d.ts`: reasons of the meeting reconnecting
(`on hold`, `failover`, `promote`, `depromote`). -/
inductive ReconnectingReason
  | onHold
  | failover
  | promote
  | depromote
deriving DecidableEq, Repr

/-- Embedded from `event-callback.d.ts`: reasons of the meeting closed
(`kicked by host`, `ended by host`, `expeled by host`). -/
inductive ClosedReason
  | kickedByHost
  | endedByHost
  | expeledByHost
deriving DecidableEq, Repr

/-- The reason union `ReconnectingReason | ClosedReason` of the
`ConnectionChangePayload` declared in `event-callback.d.ts`. -/
inductive ConnectionChangeReason
  | reconnecting (r : ReconnectingReason)
  | closed (r : ClosedReason)
deriving DecidableEq, Repr

/-- Embedded from `event-callback.d.ts`: the payload of the
`connection-change` event; `reason` is an optional field. -/
structure ConnectionChangePayload where
  state : ConnectionState
  reason : Option ConnectionChangeReason
deriving DecidableEq, Repr

/-- Embedded from `event-callback.d.ts`: participant properties. -/
structure Participant where
  userId : Nat
  avatar : String
  displayName : String
  isHost : Bool
  isManager : Bool
  audio : Option String
  muted : Option Bool
  bVideoOn : Option Bool
  sharerOn : Option Bool
  sharerPause : Option Bool
deriving DecidableEq, Repr

/-- Embedded from `event-callback.d.ts`: a chat message with sender and
receiver identities. -/
structure ChatMessage where
  message : String
  sender : String
  senderId : Nat
  reader : String
  readerId : Nat
deriving DecidableEq, Repr

/-- Embedded from `chat.d.ts`: session info returned by `getSessionInfo`. -/
structure SessionInfo where
  topic : String
  password : String
  userName : String
  userId : Nat
  isInMeeting : Bool
deriving DecidableEq, Repr

namespace ChatPrivilege

/-- Embedded from `event-callback.d.ts`: `ChatPrivilege.All = 1`,
attendee can talk to all or privately to someone. -/
def All : Nat := 1

/-- Embedded from `event-callback.d.ts`: `ChatPrivilege.None = 4`,
attendee can talk to no one. -/
def NoOne : Nat := 4

/-- Embedded from `event-callback.d.ts`: `ChatPrivilege.EveryOnePublicly = 5`,
attendee can only talk to all (private chat disabled). -/
def EveryOnePublicly : Nat := 5

end ChatPrivilege

/-- A privilege value is one of the declared `ChatPrivilege` enum members
`1`, `4`, `5` of `event-callback.d.ts`. -/
def isValidPrivilege (p : Nat) : Bool :=
  p == ChatPrivilege.All || p == ChatPrivilege.NoOne ||
    p == ChatPrivilege.EveryOnePublicly

/-- Embedded from `chat.d.ts`: the error reasons documented on the chat
commands (`sendChatToUser`, `sendChatToAll`, `changePrivilege`). -/
inductive ChatError
  | IMPROPER_MEETING_STATE
  | INSUFFICIENT_PRIVILEGES
  | INVALID_PARAMETERS
  | INTERNAL_ERROR
  | OPERATION_TIMEOUT
deriving DecidableEq, Repr

/-- Embedded from `chat.d.ts` (`InstantClient.join` doc): the stable reason
codes of a failed `join`. -/
inductive JoinError
  | duplicatedOperation
  | invalidApiKeyOrSignature
  | invalidPassword
  | meetingNotStarted
  | meetingLocked
  | meetingAtCapacity
  | meetingEnded
  | rejectedByInformationBarrier
  | rejectedByExistedParticipant
  | invalidParameters
  | rejectedByBeenDenied
  | internalError
deriving DecidableEq, Repr

/-- Modelled from the spec: the lifecycle states of the session state
machine, `Idle → Connecting → InMeeting → Reconnecting → InMeeting | Closed`,
with `Closed` terminal. The implementation of the state machine is not in
the repository. -/
inductive SessionState
  | Idle
  | Connecting
  | InMeeting
  | Reconnecting
  | Closed
deriving DecidableEq, Repr

/-- Modelled from the spec: the authoritative session state owned by the
session state machine and participant registry — connection lifecycle
state, `SessionInfo` (created on successful join, cleared on leave/close),
the participant roster, the effective chat privilege, and the listeners
registered for the `chat-privilege-change` event (by handler id). The
implementation holding this state is not in the repository. -/
structure ClientState where
  state : SessionState
  sessionInfo : Option SessionInfo
  roster : List Participant
  chatPrivilege : Nat
  privilegeListeners : List Nat
deriving DecidableEq, Repr

/-- Modelled from the spec: the remote outcome a `join` attempt observes
from the external network/session layer, which is not in the repository. -/
inductive JoinOutcome
  | accepted (userId : Nat)
  | rejected (e : JoinError)
deriving DecidableEq, Repr

/-- Outcome of a `join` call: the deferred result and the session state
after the call. -/
structure JoinResult where
  result : Except JoinError Unit
  state : ClientState
deriving Repr

/-- Modelled from the spec: `join(topic, token, userName, password?)` of
`InstantClient` (declared in `chat.d.ts`; implementation not in the
repository). Valid only from `Idle`; a call while already `Connecting` or
`InMeeting` fails with the `duplicated operation` reason and leaves the
session state unchanged; remote rejections fail with their reason code
without state change; on acceptance the state becomes `InMeeting` with a
fresh `SessionInfo`. The spec leaves `join` from `Reconnecting`/`Closed`
unspecified beyond being invalid; it is modelled as the unclassified
internal failure. -/
def join (c : ClientState) (topic token userName : String)
    (password : Option String) (remote : JoinOutcome) : JoinResult :=
  match c.state with
  | SessionState.Connecting => ⟨Except.error JoinError.duplicatedOperation, c⟩
  | SessionState.InMeeting => ⟨Except.error JoinError.duplicatedOperation, c⟩
  | SessionState.Idle =>
    match remote with
    | JoinOutcome.rejected e => ⟨Except.error e, c⟩
    | JoinOutcome.accepted uid =>
      ⟨Except.ok (),
       { state := SessionState.InMeeting,
         sessionInfo := some
           { topic := topic, password := password.getD "",
             userName := userName, userId := uid, isInMeeting := true },
         roster := [],
         chatPrivilege := ChatPrivilege.All,
         privilegeListeners := c.privilegeListeners }⟩
  | SessionState.Reconnecting => ⟨Except.error JoinError.internalError, c⟩
  | SessionState.Closed => ⟨Except.error JoinError.internalError, c⟩

/-- State-precondition error of a lifecycle command issued in the wrong
state (taxonomy of spec section 7). -/
inductive StateError
  | improperState
deriving DecidableEq, Repr

/-- Outcome of a `leave` call: the deferred result and the session state
after the call. -/
structure LeaveResult where
  result : Except StateError Unit
  state : ClientState
deriving Repr

/-- Modelled from the spec: `leave()` of `InstantClient` (declared in
`chat.d.ts`; implementation not in the repository). Valid from any
non-`Idle`/`Closed` state, transitioning to `Closed` and clearing
`SessionInfo` and the roster; a no-op if already `Closed`; a
state-precondition error from `Idle`. -/
def leave (c : ClientState) : LeaveResult :=
  match c.state with
  | SessionState.Idle => ⟨Except.error StateError.improperState, c⟩
  | SessionState.Closed => ⟨Except.ok (), c⟩
  | _ =>
    ⟨Except.ok (),
     { state := SessionState.Closed, sessionInfo := none, roster := [],
       chatPrivilege := c.chatPrivilege,
       privilegeListeners := c.privilegeListeners }⟩

/-- Modelled from the spec: the network-driven connection transitions the
external network/session layer reports (implementation not in the
repository): transient link loss into `Reconnecting` with a
`ReconnectingReason`, recovery back into the meeting, and host-initiated
termination into `Closed` with a `ClosedReason`. -/
inductive ConnectionEvent
  | linkLoss (r : ReconnectingReason)
  | recovered
  | terminated (r : ClosedReason)
deriving DecidableEq, Repr

/-- Modelled from the spec: the `connection-change` payload published for a
network-driven transition — `Reconnecting` annotated with its reconnecting
reason, `Closed` annotated with its close reason, recovery published as
`Connected` with no reason. -/
def connectionPayload : ConnectionEvent → ConnectionChangePayload
  | ConnectionEvent.linkLoss r =>
    ⟨ConnectionState.Reconnecting, some (ConnectionChangeReason.reconnecting r)⟩
  | ConnectionEvent.recovered => ⟨ConnectionState.Connected, none⟩
  | ConnectionEvent.terminated r =>
    ⟨ConnectionState.Closed, some (ConnectionChangeReason.closed r)⟩

/-- Modelled from the spec: the reserved EVERY_ONE user id, the synthetic
receiver identity representing a broadcast chat audience; `chat.d.ts`
documents the special user but its concrete id is not in the repository. -/
def EVERYONE_USER_ID : Nat := 0

/-- Modelled from the spec: the display name of the reserved EVERY_ONE
broadcast receiver; its concrete value is not in the repository. -/
def EVERYONE_DISPLAY_NAME : String := "Everyone"

/-- Modelled from the spec: the current user of the session, looked up in
the participant registry by the `SessionInfo` user id; the registry
implementation is not in the repository. -/
def currentUser (c : ClientState) : Option Participant :=
  match c.sessionInfo with
  | none => none
  | some si => c.roster.find? (fun p => p.userId == si.userId)

/-- Embedded from `chat.d.ts`: `ChatClient.getPrivilege()` returns the
current effective privilege value. -/
def getPrivilege (c : ClientState) : Nat :=
  c.chatPrivilege

/-- Modelled from the spec: `ChatClient.sendChatToAll(text)` (declared in
`chat.d.ts`; implementation not in the repository). Valid only while
`InMeeting` (`IMPROPER_MEETING_STATE` otherwise); the effective
send-permission is re-evaluated on the call, and the "talk to no one"
privilege fails with `INSUFFICIENT_PRIVILEGES`; empty text fails with
`INVALID_PARAMETERS`; on success the constructed `ChatMessage` carries the
synthetic EVERY_ONE receiver identity. -/
def sendChatToAll (c : ClientState) (text : String) :
    Except ChatError ChatMessage :=
  if c.state = SessionState.InMeeting then
    if c.chatPrivilege = ChatPrivilege.NoOne then
      Except.error ChatError.INSUFFICIENT_PRIVILEGES
    else if text = "" then
      Except.error ChatError.INVALID_PARAMETERS
    else
      match c.sessionInfo with
      | none => Except.error ChatError.INTERNAL_ERROR
      | some si =>
        Except.ok
          { message := text, sender := si.userName, senderId := si.userId,
            reader := EVERYONE_DISPLAY_NAME, readerId := EVERYONE_USER_ID }
  else Except.error ChatError.IMPROPER_MEETING_STATE

/-- Modelled from the spec: `ChatClient.sendChatToUser(text, userId)`
(declared in `chat.d.ts`; implementation not in the repository). Valid only
while `InMeeting`; fails with `INSUFFICIENT_PRIVILEGES` when the privilege
policy forbids the target — "talk to no one" (4) forbids every target and
"only talk to all" (5) disables private chat; empty text or an unknown
target id fails with `INVALID_PARAMETERS`. -/
def sendChatToUser (c : ClientState) (text : String) (userId : Nat) :
    Except ChatError ChatMessage :=
  if c.state = SessionState.InMeeting then
    if c.chatPrivilege = ChatPrivilege.NoOne then
      Except.error ChatError.INSUFFICIENT_PRIVILEGES
    else if c.chatPrivilege = ChatPrivilege.EveryOnePublicly then
      Except.error ChatError.INSUFFICIENT_PRIVILEGES
    else if text = "" then
      Except.error ChatError.INVALID_PARAMETERS
    else
      match c.roster.find? (fun p => p.userId == userId) with
      | none => Except.error ChatError.INVALID_PARAMETERS
      | some target =>
        match c.sessionInfo with
        | none => Except.error ChatError.INTERNAL_ERROR
        | some si =>
          Except.ok
            { message := text, sender := si.userName, senderId := si.userId,
              reader := target.displayName, readerId := target.userId }
  else Except.error ChatError.IMPROPER_MEETING_STATE

/-- Outcome of a `changePrivilege` call: the deferred result (the new
`chatPrivilege` on success), the session state after the call, and the
`chat-privilege-change` deliveries `(listener, chatPrivilege)` pushed to
the registered listeners. -/
structure ChangePrivilegeResult where
  result : Except ChatError Nat
  state : ClientState
  deliveries : List (Nat × Nat)
deriving Repr

/-- Modelled from the spec: `ChatClient.changePrivilege(privilege)`
(declared in `chat.d.ts`; implementation not in the repository). Valid
only while `InMeeting`; a privilege value outside the declared
`ChatPrivilege` members fails with `INVALID_PARAMETERS`; a caller who is
neither host nor manager fails with `INSUFFICIENT_PRIVILEGES`; on success
the effective privilege is updated, reflected by `getPrivilege`, and a
`chat-privilege-change` event carrying the new privilege is delivered to
every registered listener. -/
def changePrivilege (c : ClientState) (privilege : Nat) :
    ChangePrivilegeResult :=
  if c.state = SessionState.InMeeting then
    if isValidPrivilege privilege then
      match currentUser c with
      | none => ⟨Except.error ChatError.INTERNAL_ERROR, c, []⟩
      | some u =>
        if u.isHost || u.isManager then
          ⟨Except.ok privilege, { c with chatPrivilege := privilege },
           c.privilegeListeners.map (fun h => (h, privilege))⟩
        else ⟨Except.error ChatError.INSUFFICIENT_PRIVILEGES, c, []⟩
    else ⟨Except.error ChatError.INVALID_PARAMETERS, c, []⟩
  else ⟨Except.error ChatError.IMPROPER_MEETING_STATE, c, []⟩

/-- Modelled from the spec: the state of the event bus for one event name —
the handlers in registration order (by handler id) and the log of
deliveries `(handler, payload)` in delivery order. The bus implementation
is not in the repository. -/
structure EventBusState (α : Type) where
  handlers : List Nat
  log : List (Nat × α)
deriving Repr

/-- Modelled from the spec: the operations on the event bus for one event
name — `on` registers a handler, `off` deregisters it, `emit` publishes a
payload. -/
inductive BusOp (α : Type)
  | on (h : Nat)
  | off (h : Nat)
  | emit (p : α)

/-- Modelled from the spec: the deliveries produced by one emission — the
payload is pushed to exactly the handlers registered at emission time, in
registration order. -/
def emitDeliveries {α : Type} (handlers : List Nat) (p : α) :
    List (Nat × α) :=
  handlers.map (fun h => (h, p))

/-- Modelled from the spec: one step of the event bus — `on` appends the
handler (invocation happens in registration order), `off` removes it,
`emit` appends the deliveries to the registered handlers; registration
never delivers past emissions (no buffering or replay). -/
def busStep {α : Type} (s : EventBusState α) : BusOp α → EventBusState α
  | BusOp.on h => { s with handlers := s.handlers ++ [h] }
  | BusOp.off h => { s with handlers := s.handlers.filter (fun x => x ≠ h) }
  | BusOp.emit p => { s with log := s.log ++ emitDeliveries s.handlers p }

/-- Modelled from the spec: running a sequence of bus operations. -/
def busRun {α : Type} (s : EventBusState α) (ops : List (BusOp α)) :
    EventBusState α :=
  ops.foldl busStep s

/-- Modelled from the spec: the module-level state behind
`ZoomInstant.createClient` — the client instance already created in this
session, if any, and a counter of fresh instance identities. The factory
implementation is not in the repository; `chat.d.ts` documents that the
method returns a same instance if called multiple times. -/
structure ZoomInstantState where
  clientInstance : Option Nat
  nextId : Nat
deriving DecidableEq, Repr

/-- Modelled from the spec: `ZoomInstant.createClient()` (declared in
`chat.d.ts`; implementation not in the repository) — returns the existing
client instance when one was already created, otherwise creates a fresh
one and remembers it. -/
def createClient (m : ZoomInstantState) : Nat × ZoomInstantState :=
  match m.clientInstance with
  | some i => (i, m)
  | none =>
    (m.nextId, { clientInstance := some m.nextId, nextId := m.nextId + 1 })

/-- Embedded from `chat.d.ts` / the spec: the error reasons of the
role/administrative commands — wrong lifecycle state, caller lacking the
required role, and target user id absent from the registry. -/
inductive CommandError
  | improperMeetingState
  | insufficientPrivileges
  | userNotFound
  | internalError
deriving DecidableEq, Repr

/-- Outcome of a `makeHost` call: the deferred result and the session state
after the call. -/
structure MakeHostResult where
  result : Except CommandError Unit
  state : ClientState
deriving Repr

/-- Modelled from the spec: `InstantClient.makeHost(userId)` (declared in
`chat.d.ts`; implementation not in the repository). Valid only while
`InMeeting`; only the host can make host; fails with not-found when the
target id is absent from the registry. There is only one host in the
meeting: on success the target becomes the host and every other
participant, the original host included, is not the host. -/
def makeHost (c : ClientState) (userId : Nat) : MakeHostResult :=
  if c.state = SessionState.InMeeting then
    match currentUser c with
    | none => ⟨Except.error CommandError.internalError, c⟩
    | some u =>
      if u.isHost then
        if c.roster.any (fun p => p.userId == userId) then
          ⟨Except.ok (),
           { c with roster := c.roster.map (fun p =>
               if p.userId = userId then { p with isHost := true }
               else { p with isHost := false }) }⟩
        else ⟨Except.error CommandError.userNotFound, c⟩
      else ⟨Except.error CommandError.insufficientPrivileges, c⟩
  else ⟨Except.error CommandError.improperMeetingState, c⟩

/-- At most one participant of the roster has `isHost = true` (the
registry's single-host invariant). -/
def atMostOneHost (roster : List Participant) : Prop :=
  (roster.filter (fun p => p.isHost)).length ≤ 1

/-- C1: for every session state in which the client is already `Connecting`
or `InMeeting`, a further call to `join(topic, token, userName, password?)`
fails with the duplicate-operation error reason, and the session state
(connection state, `SessionInfo`, and participant roster) is exactly the
same after the failed call as before it. -/
theorem join_duplicate_rejected (c : ClientState)
    (topic token userName : String) (pw : Option String)
    (remote : JoinOutcome)
    (h : c.state = SessionState.Connecting
      ∨ c.state = SessionState.InMeeting) :
    (join c topic token userName pw remote).result
        = Except.error JoinError.duplicatedOperation
      ∧ (join c topic token userName pw remote).state = c := by
  unfold join
  rcases h with h | h <;> rw [h] <;> exact ⟨rfl, rfl⟩

/-- Witness for C1 at a concrete in-meeting state. -/
theorem join_duplicate_rejected_witness :
    (join ⟨SessionState.InMeeting, none, [], 1, []⟩ "topic" "tok" "alice"
        none (JoinOutcome.accepted 7)).result
        = Except.error JoinError.duplicatedOperation
      ∧ (join ⟨SessionState.InMeeting, none, [], 1, []⟩ "topic" "tok" "alice"
        none (JoinOutcome.accepted 7)).state
        = ⟨SessionState.InMeeting, none, [], 1, []⟩ :=
  join_duplicate_rejected _ _ _ _ _ _ (Or.inr rfl)

/-- C2: `leave()` is idempotent on the `Closed` state: from every state that
is neither `Idle` nor `Closed`, one call to `leave()` transitions the
session to `Closed`, and a second consecutive call is a no-op (it succeeds
and changes nothing) whose final state is still `Closed`. -/
theorem leave_idempotent_closed (c : ClientState)
    (h1 : c.state ≠ SessionState.Idle)
    (h2 : c.state ≠ SessionState.Closed) :
    (leave c).result = Except.ok ()
      ∧ (leave c).state.state = SessionState.Closed
      ∧ (leave (leave c).state).result = Except.ok ()
      ∧ (leave (leave c).state).state = (leave c).state
      ∧ (leave (leave c).state).state.state = SessionState.Closed := by
  cases hc : c.state with
  | Idle => exact absurd hc h1
  | Closed => exact absurd hc h2
  | Connecting => simp [leave, hc]
  | InMeeting => simp [leave, hc]
  | Reconnecting => simp [leave, hc]

/-- Witness for C2 at a concrete in-meeting state. -/
theorem leave_idempotent_closed_witness :
    (leave ⟨SessionState.InMeeting, none, [], 1, []⟩).state.state
        = SessionState.Closed
      ∧ (leave (leave ⟨SessionState.InMeeting, none, [], 1, []⟩).state).state
        = (leave ⟨SessionState.InMeeting, none, [], 1, []⟩).state :=
  ⟨(leave_idempotent_closed _ (by decide) (by decide)).2.1,
   (leave_idempotent_closed _ (by decide) (by decide)).2.2.2.1⟩

/-- C3: for every `ConnectionChangePayload` published for a network-driven
connection transition, the `reason` field is present only when the `state`
field is `Reconnecting` or `Closed`; whenever the `state` field is
`Connected`, the payload carries no reason. -/
theorem connection_payload_reason_invariant (ev : ConnectionEvent) :
    ((connectionPayload ev).reason.isSome →
        (connectionPayload ev).state = ConnectionState.Reconnecting
          ∨ (connectionPayload ev).state = ConnectionState.Closed)
      ∧ ((connectionPayload ev).state = ConnectionState.Connected →
        (connectionPayload ev).reason = none) := by
  cases ev <;> simp [connectionPayload]

/-- Witness for C3 at concrete transitions. -/
theorem connection_payload_reason_invariant_witness :
    (connectionPayload ConnectionEvent.recovered).reason = none
      ∧ ((connectionPayload (ConnectionEvent.linkLoss
            ReconnectingReason.failover)).state
          = ConnectionState.Reconnecting
        ∨ (connectionPayload (ConnectionEvent.linkLoss
            ReconnectingReason.failover)).state = ConnectionState.Closed) :=
  ⟨(connection_payload_reason_invariant ConnectionEvent.recovered).2 rfl,
   (connection_payload_reason_invariant
      (ConnectionEvent.linkLoss ReconnectingReason.failover)).1 rfl⟩

/-- C5: for every text `t`, a successful `sendChatToAll(t)` produces a
`ChatMessage` whose receiver identity (`reader`/`readerId`) equals the
reserved EVERY_ONE sentinel identity and whose `message` field equals `t`. -/
theorem sendChatToAll_everyone_receiver (c : ClientState) (t : String)
    (msg : ChatMessage) (h : sendChatToAll c t = Except.ok msg) :
    msg.readerId = EVERYONE_USER_ID
      ∧ msg.reader = EVERYONE_DISPLAY_NAME
      ∧ msg.message = t := by
  unfold sendChatToAll at h
  split at h
  · split at h
    · simp at h
    · split at h
      · simp at h
      · split at h
        · simp at h
        · cases h
          exact ⟨rfl, rfl, rfl⟩
  · simp at h

/-- Witness for C5: a concrete broadcast send while in meeting. -/
theorem sendChatToAll_everyone_receiver_witness :
    (⟨"hi", "alice", 1, EVERYONE_DISPLAY_NAME, EVERYONE_USER_ID⟩
        : ChatMessage).readerId = EVERYONE_USER_ID
      ∧ (⟨"hi", "alice", 1, EVERYONE_DISPLAY_NAME, EVERYONE_USER_ID⟩
        : ChatMessage).reader = EVERYONE_DISPLAY_NAME
      ∧ (⟨"hi", "alice", 1, EVERYONE_DISPLAY_NAME, EVERYONE_USER_ID⟩
        : ChatMessage).message = "hi" :=
  sendChatToAll_everyone_receiver
    ⟨SessionState.InMeeting, some ⟨"topic", "", "alice", 1, true⟩, [], 1, []⟩
    "hi" ⟨"hi", "alice", 1, EVERYONE_DISPLAY_NAME, EVERYONE_USER_ID⟩ rfl

/-- C7: while the effective chat privilege is the "talk to no one" policy
(`ChatPrivilege.None = 4`), every send operation — `sendChatToUser(text,
userId)` for any target `userId` and `sendChatToAll(text)` — fails with an
insufficient-privilege error, regardless of the target. -/
theorem send_blocked_when_privilege_none (c : ClientState)
    (h1 : c.state = SessionState.InMeeting)
    (h2 : c.chatPrivilege = ChatPrivilege.NoOne) :
    ∀ (t : String) (uid : Nat),
      sendChatToUser c t uid
          = Except.error ChatError.INSUFFICIENT_PRIVILEGES
        ∧ sendChatToAll c t
          = Except.error ChatError.INSUFFICIENT_PRIVILEGES := by
  intro t uid
  constructor
  · simp [sendChatToUser, h1, h2]
  · simp [sendChatToAll, h1, h2]

/-- Witness for C7 at a concrete state with privilege 4. -/
theorem send_blocked_when_privilege_none_witness :
    sendChatToUser ⟨SessionState.InMeeting, none, [], 4, []⟩ "hi" 2
        = Except.error ChatError.INSUFFICIENT_PRIVILEGES
      ∧ sendChatToAll ⟨SessionState.InMeeting, none, [], 4, []⟩ "hi"
        = Except.error ChatError.INSUFFICIENT_PRIVILEGES :=
  send_blocked_when_privilege_none _ rfl rfl "hi" 2

/-- C8: for every input privilege value that is not one of the declared
`ChatPrivilege` values 1, 4, 5, `changePrivilege(privilege)` fails with the
`INVALID_PARAMETERS` error, and the effective privilege returned by
`getPrivilege()` is unchanged. -/
theorem changePrivilege_invalid_value (c : ClientState) (p : Nat)
    (h1 : c.state = SessionState.InMeeting)
    (h2 : isValidPrivilege p = false) :
    (changePrivilege c p).result = Except.error ChatError.INVALID_PARAMETERS
      ∧ getPrivilege (changePrivilege c p).state = getPrivilege c := by
  simp [changePrivilege, h1, h2]

/-- Witness for C8 at the out-of-range privilege value 2. -/
theorem changePrivilege_invalid_value_witness :
    (changePrivilege ⟨SessionState.InMeeting, none, [], 1, []⟩ 2).result
        = Except.error ChatError.INVALID_PARAMETERS
      ∧ getPrivilege
          (changePrivilege ⟨SessionState.InMeeting, none, [], 1, []⟩ 2).state
        = getPrivilege ⟨SessionState.InMeeting, none, [], 1, []⟩ :=
  changePrivilege_invalid_value _ 2 rfl rfl

/-- C9: `ZoomInstant.createClient()` is a singleton constructor: a second
call returns the same client instance as the first (and leaves the module
state unchanged), so the two calls agree. -/
theorem createClient_singleton (m : ZoomInstantState) :
    (createClient (createClient m).2).1 = (createClient m).1
      ∧ (createClient (createClient m).2).2 = (createClient m).2 := by
  cases hm : m.clientInstance <;> simp [createClient, hm]

/-- C4: `changePrivilege(5)` called while `InMeeting` by a caller who is
neither host nor manager rejects with an insufficient-privilege error and
leaves the effective privilege unchanged; the same call by the host
succeeds, after which `getPrivilege()` returns 5 and a
`chat-privilege-change` event with payload `chatPrivilege = 5` is delivered
to every registered listener. -/
theorem changePrivilege_host_gate (c : ClientState) (u : Participant)
    (hs : c.state = SessionState.InMeeting)
    (hu : currentUser c = some u) :
    (u.isHost = false → u.isManager = false →
        (changePrivilege c 5).result
            = Except.error ChatError.INSUFFICIENT_PRIVILEGES
          ∧ (changePrivilege c 5).state = c
          ∧ getPrivilege (changePrivilege c 5).state = getPrivilege c)
      ∧ (u.isHost = true →
        (changePrivilege c 5).result = Except.ok 5
          ∧ getPrivilege (changePrivilege c 5).state = 5
          ∧ ∀ g ∈ c.privilegeListeners,
              (g, 5) ∈ (changePrivilege c 5).deliveries) := by
  constructor
  · intro hh hm
    refine ⟨?_, ?_, ?_⟩ <;>
      simp [changePrivilege, hs, hu, hh, hm, isValidPrivilege,
        ChatPrivilege.All, ChatPrivilege.NoOne, ChatPrivilege.EveryOnePublicly,
        getPrivilege]
  · intro hh
    refine ⟨?_, ?_, ?_⟩
    · simp [changePrivilege, hs, hu, hh, isValidPrivilege,
        ChatPrivilege.All, ChatPrivilege.NoOne, ChatPrivilege.EveryOnePublicly]
    · simp [changePrivilege, hs, hu, hh, isValidPrivilege,
        ChatPrivilege.All, ChatPrivilege.NoOne, ChatPrivilege.EveryOnePublicly,
        getPrivilege]
    · intro g hg
      have hd : (changePrivilege c 5).deliveries
          = c.privilegeListeners.map (fun h => (h, 5)) := by
        simp [changePrivilege, hs, hu, hh, isValidPrivilege,
          ChatPrivilege.All, ChatPrivilege.NoOne,
          ChatPrivilege.EveryOnePublicly]
      rw [hd]
      exact List.mem_map_of_mem _ hg

/-- Witness for C4: a non-host, non-manager caller is rejected; a host
caller succeeds, `getPrivilege` returns 5 and the listener 9 receives the
privilege-change delivery. -/
theorem changePrivilege_host_gate_witness :
    (changePrivilege ⟨SessionState.InMeeting,
          some ⟨"topic", "", "bob", 2, true⟩,
          [⟨2, "", "bob", false, false, none, none, none, none, none⟩],
          1, []⟩ 5).result
        = Except.error ChatError.INSUFFICIENT_PRIVILEGES
      ∧ (changePrivilege ⟨SessionState.InMeeting,
          some ⟨"topic", "", "alice", 1, true⟩,
          [⟨1, "", "alice", true, false, none, none, none, none, none⟩],
          1, [9]⟩ 5).result = Except.ok 5
      ∧ getPrivilege (changePrivilege ⟨SessionState.InMeeting,
          some ⟨"topic", "", "alice", 1, true⟩,
          [⟨1, "", "alice", true, false, none, none, none, none, none⟩],
          1, [9]⟩ 5).state = 5
      ∧ (9, 5) ∈ (changePrivilege ⟨SessionState.InMeeting,
          some ⟨"topic", "", "alice", 1, true⟩,
          [⟨1, "", "alice", true, false, none, none, none, none, none⟩],
          1, [9]⟩ 5).deliveries :=
  ⟨((changePrivilege_host_gate ⟨SessionState.InMeeting,
      some ⟨"topic", "", "bob", 2, true⟩,
      [⟨2, "", "bob", false, false, none, none, none, none, none⟩], 1, []⟩
      ⟨2, "", "bob", false, false, none, none, none, none, none⟩
      rfl rfl).1 rfl rfl).1,
   ((changePrivilege_host_gate ⟨SessionState.InMeeting,
      some ⟨"topic", "", "alice", 1, true⟩,
      [⟨1, "", "alice", true, false, none, none, none, none, none⟩], 1, [9]⟩
      ⟨1, "", "alice", true, false, none, none, none, none, none⟩
      rfl rfl).2 rfl).1,
   ((changePrivilege_host_gate ⟨SessionState.InMeeting,
      some ⟨"topic", "", "alice", 1, true⟩,
      [⟨1, "", "alice", true, false, none, none, none, none, none⟩], 1, [9]⟩
      ⟨1, "", "alice", true, false, none, none, none, none, none⟩
      rfl rfl).2 rfl).2.1,
   ((changePrivilege_host_gate ⟨SessionState.InMeeting,
      some ⟨"topic", "", "alice", 1, true⟩,
      [⟨1, "", "alice", true, false, none, none, none, none, none⟩], 1, [9]⟩
      ⟨1, "", "alice", true, false, none, none, none, none, none⟩
      rfl rfl).2 rfl).2.2 9 (by simp)⟩

/-- The number of deliveries of one emission addressed to a given handler
equals the number of times that handler is registered. -/
theorem emitDeliveries_count (hs : List Nat) (batch : List Participant)
    (g : Nat) :
    (emitDeliveries hs batch).count (g, batch) = hs.count g := by
  induction hs with
  | nil => rfl
  | cons a t ih =>
    show List.count (g, batch) ((a, batch) :: emitDeliveries t batch)
        = List.count g (a :: t)
    rw [List.count_cons, List.count_cons, ih]
    by_cases h : a = g
    · simp [h]
    · simp [h]

/-- C6: the event bus never buffers or replays — the deliveries of one
emission go exactly to the handlers registered at emission time: a handler
not registered at emission time (in particular one registered only
afterwards) is absent from that emission's deliveries, a handler registered
exactly once receives exactly one invocation carrying the full payload, and
registering a handler adds nothing to the delivery log. -/
theorem event_bus_no_replay (s : EventBusState (List Participant))
    (batch : List Participant) (g : Nat) :
    (g ∉ s.handlers → (g, batch) ∉ emitDeliveries s.handlers batch)
      ∧ (s.handlers.count g = 1 →
        (emitDeliveries s.handlers batch).count (g, batch) = 1)
      ∧ (busStep s (BusOp.on g)).log = s.log := by
  refine ⟨?_, ?_, rfl⟩
  · intro hg hmem
    rcases List.mem_map.1 hmem with ⟨x, hx, hxe⟩
    have hxg : x = g := congrArg Prod.fst hxe
    exact hg (hxg ▸ hx)
  · intro hcount
    rw [emitDeliveries_count]
    exact hcount

/-- Witness for C6: an unregistered handler gets no delivery; a handler
registered once gets exactly one. -/
theorem event_bus_no_replay_witness :
    ((5, ([] : List Participant))
        ∉ emitDeliveries [7] ([] : List Participant))
      ∧ (emitDeliveries [7] ([] : List Participant)).count
          (7, ([] : List Participant)) = 1 :=
  ⟨(event_bus_no_replay ⟨[7], []⟩ [] 5).1 (by decide),
   (event_bus_no_replay ⟨[7], []⟩ [] 7).2.1 (by decide)⟩

/-- Hosting after `makeHost`: filtering the updated roster for hosts keeps
exactly the participants whose user id is the target id. -/
theorem makeHost_roster_filter (r : List Participant) (uid : Nat) :
    ((r.map (fun p =>
        if p.userId = uid then { p with isHost := true }
        else { p with isHost := false })).filter (fun p => p.isHost))
      = (r.filter (fun p => p.userId == uid)).map (fun p =>
          if p.userId = uid then { p with isHost := true }
          else { p with isHost := false }) := by
  induction r with
  | nil => rfl
  | cons a t ih =>
    by_cases h : a.userId = uid
    · simp [List.filter_cons, h, ih]
    · simp [List.filter_cons, h, ih]

/-- In a roster whose user ids have no duplicate, at most one participant
carries any given user id. -/
theorem filter_userId_length_le_one (r : List Participant) (uid : Nat)
    (hnd : (r.map Participant.userId).Nodup) :
    (r.filter (fun p => p.userId == uid)).length ≤ 1 := by
  induction r with
  | nil => simp
  | cons a t ih =>
    rw [List.map_cons, List.nodup_cons] at hnd
    obtain ⟨ha, ht⟩ := hnd
    by_cases h : a.userId = uid
    · have htf : t.filter (fun p => p.userId == uid) = [] := by
        rw [List.filter_eq_nil_iff]
        intro q hq
        simp only [beq_iff_eq]
        intro hqe
        have : a.userId ∈ t.map Participant.userId := by
          rw [h, ← hqe]
          exact List.mem_map_of_mem _ hq
        exact ha this
      simp [List.filter_cons, h, htf]
    · have hb : (a.userId == uid) = false := by
        simp [h]
      rw [List.filter_cons, hb]
      simp only [Bool.false_eq_true, if_false]
      exact ih ht

/-- C10: the roster maintains at most one host: a successful
`makeHost(userId)` on a roster whose user ids have no duplicate sets
`isHost` on the target, clears `isHost` on every other participant (the
previous host included), and the resulting roster has at most one host. -/
theorem makeHost_single_host (c : ClientState) (uid : Nat)
    (hnd : (c.roster.map Participant.userId).Nodup)
    (hok : (makeHost c uid).result = Except.ok ()) :
    atMostOneHost (makeHost c uid).state.roster
      ∧ (∀ p ∈ (makeHost c uid).state.roster,
          p.userId = uid → p.isHost = true)
      ∧ (∀ p ∈ (makeHost c uid).state.roster,
          p.userId ≠ uid → p.isHost = false) := by
  by_cases hst : c.state = SessionState.InMeeting
  · cases hcu : currentUser c with
    | none => simp [makeHost, hst, hcu] at hok
    | some u =>
      by_cases hh : u.isHost = true
      · by_cases hex : c.roster.any (fun p => p.userId == uid) = true
        · have hro : (makeHost c uid).state.roster
              = c.roster.map (fun p =>
                  if p.userId = uid then { p with isHost := true }
                  else { p with isHost := false }) := by
            simp [makeHost, hst, hcu, hh, hex]
          refine ⟨?_, ?_, ?_⟩
          · rw [atMostOneHost, hro, makeHost_roster_filter,
              List.length_map]
            exact filter_userId_length_le_one c.roster uid hnd
          · intro p hp hpu
            rw [hro] at hp
            rcases List.mem_map.1 hp with ⟨q, hq, rfl⟩
            by_cases h : q.userId = uid
            · simp [h]
            · simp only [if_neg h] at hpu ⊢
              exact absurd hpu h
          · intro p hp hpu
            rw [hro] at hp
            rcases List.mem_map.1 hp with ⟨q, hq, rfl⟩
            by_cases h : q.userId = uid
            · simp only [if_pos h] at hpu
              exact absurd h hpu
            · simp [h]
        · simp [makeHost, hst, hcu, hh, hex] at hok
      · simp [makeHost, hst, hcu, hh] at hok
  · simp [makeHost, hst] at hok

/-- Witness for C10: making the attendee 2 the host in a two-participant
roster whose host was 1. -/
theorem makeHost_single_host_witness :
    atMostOneHost (makeHost ⟨SessionState.InMeeting,
        some ⟨"topic", "", "alice", 1, true⟩,
        [⟨1, "", "alice", true, false, none, none, none, none, none⟩,
         ⟨2, "", "bob", false, false, none, none, none, none, none⟩],
        1, []⟩ 2).state.roster :=
  (makeHost_single_host ⟨SessionState.InMeeting,
      some ⟨"topic", "", "alice", 1, true⟩,
      [⟨1, "", "alice", true, false, none, none, none, none, none⟩,
       ⟨2, "", "bob", false, false, none, none, none, none, none⟩],
      1, []⟩ 2 (by decide) rfl).1
